import Mathlib

/-!
Verification development for the email assistant bot (src/emailbot.py).

The program is a LangGraph workflow over a TypedDict state (EmailState),
driven by a scheduler loop.  We embed it shallowly: each node function
from the source becomes a Lean function from the run state (plus the
relevant external-collaborator data for that run) to a partial state
update, and the graph built at the bottom of the file becomes an explicit
sequential executor that follows exactly the edges the source adds.

External collaborators are modelled as data carried in a RunEnv record:
the mailbox contents seen by monitor_node, the structured classifier
response consumed by evaluate_write_node, and success flags for the Gmail
send / label-modification calls (a false flag stands for the underlying
API call raising an exception).
-/

/-- Classifier output schema, translated from the pydantic model
EmailContent in emailbot.py (fields subject, html_content, is_spam,
is_noreply, category). -/
structure EmailContent where
  subject : String
  html_content : String
  is_spam : Bool
  is_noreply : Bool
  category : String
  deriving DecidableEq

/-- Run state, translated from the TypedDict EmailState in emailbot.py.
Every field is Option-valued because LangGraph state keys may be absent
until some node writes them; a Python state.get on an absent key returns
None, which we model as none. -/
structure EmailState where
  sender : Option String
  email_id : Option String
  thread_id : Option String
  raw_body : Option String
  subject : Option String
  is_spam : Option Bool
  is_noreply : Option Bool
  category : Option String
  draft : Option String
  status : Option String
  deriving DecidableEq

/-- Partial state update returned by a node: some v means the node
returned that key in its update dict, none means the key was absent. -/
structure EmailUpdate where
  sender : Option String
  email_id : Option String
  thread_id : Option String
  raw_body : Option String
  subject : Option String
  is_spam : Option Bool
  is_noreply : Option Bool
  category : Option String
  draft : Option String
  status : Option String
  deriving DecidableEq

/-- Update with no keys: the node returned an empty dict. -/
def emptyUpdate : EmailUpdate :=
  { sender := none, email_id := none, thread_id := none, raw_body := none,
    subject := none, is_spam := none, is_noreply := none, category := none,
    draft := none, status := none }

/-- LangGraph last-value channel semantics for one key: a key present in
the update overwrites the channel, an absent key leaves it unchanged. -/
def orKeep {α : Type} (new old : Option α) : Option α :=
  match new with
  | some v => some v
  | none => old

/-- Merge a node update into the current state, key by key
(last-writer-wins per field, as LangGraph does for TypedDict channels). -/
def applyUpdate (s : EmailState) (u : EmailUpdate) : EmailState :=
  { sender := orKeep u.sender s.sender,
    email_id := orKeep u.email_id s.email_id,
    thread_id := orKeep u.thread_id s.thread_id,
    raw_body := orKeep u.raw_body s.raw_body,
    subject := orKeep u.subject s.subject,
    is_spam := orKeep u.is_spam s.is_spam,
    is_noreply := orKeep u.is_noreply s.is_noreply,
    category := orKeep u.category s.category,
    draft := orKeep u.draft s.draft,
    status := orKeep u.status s.status }

/-- The state of a brand-new LangGraph thread: no key has been written.
The input dict passed by main, namely a single key named state, is not a
key of the EmailState schema and therefore writes no channel. -/
def freshEmailState : EmailState :=
  { sender := none, email_id := none, thread_id := none, raw_body := none,
    subject := none, is_spam := none, is_noreply := none, category := none,
    draft := none, status := none }

/-- One message as returned by the Gmail API in monitor_node: id,
threadId, a header list, and the snippet used as the raw body. -/
structure GmailMessage where
  id : String
  threadId : String
  headers : List (String × String)
  snippet : String
  deriving DecidableEq

/-- Errors a run can fail with.  In the source these are exceptions
propagating out of a node (a StopIteration from the header search, or a
Gmail API error from send or modify); the scheduler loop catches them. -/
inductive RunError
  | headerMissing
  | sendError
  | labelMutationError
  | archiveError
  deriving DecidableEq

/-- Mailbox operations attempted by a node: the send call and the
label-modification calls issued through the Gmail service. -/
inductive MailOp
  | sendMessage (threadId toAddr subject body : String)
  | removeLabels (msgId : String) (labels : List String)
  deriving DecidableEq

/-- Header extraction from monitor_node: the Python expression
next(h for h in headers if h name matches) takes the value of the first
matching header and raises StopIteration when there is none. -/
def findHeader (headers : List (String × String)) (name : String) : Option String :=
  (headers.find? (fun h => h.1 = name)).map (fun h => h.2)

/-- Translation of monitor_node.  It lists unread messages (the mailbox
argument), returns a status-only update on an empty mailbox, and
otherwise reads the first message, failing when the From or the Subject
header is absent (StopIteration, modelled as headerMissing; the From
lookup happens first in the source).  The state argument is unused, as
in the source. -/
def monitor_node (mailbox : List GmailMessage) (_s : EmailState) :
    Except RunError EmailUpdate :=
  match mailbox with
  | [] => Except.ok { emptyUpdate with status := some "no_new_emails" }
  | m :: _ =>
    match findHeader m.headers "From" with
    | none => Except.error RunError.headerMissing
    | some sender =>
      match findHeader m.headers "Subject" with
      | none => Except.error RunError.headerMissing
      | some subject =>
        Except.ok { emptyUpdate with
          email_id := some m.id,
          thread_id := some m.threadId,
          sender := some sender,
          raw_body := some m.snippet,
          status := some "new_email_detected",
          subject := some subject }

/-- Translation of evaluate_write_node.  The LLM call is the external
classifier; its structured response is the argument.  Note that the
returned update copies html_content into draft unconditionally: the
instruction to keep the draft empty for spam or no-reply mail lives only
in the prompt text, not in this code.  The state argument feeds the
prompt (sender and raw_body) and nothing else. -/
def evaluate_write_node (response : EmailContent) (_s : EmailState) : EmailUpdate :=
  { emptyUpdate with
    is_spam := some response.is_spam,
    is_noreply := some response.is_noreply,
    category := some response.category,
    draft := some response.html_content,
    status := some "drafted" }

/-- Translation of sender_node.  It builds the reply (To from sender,
Subject prefixed with Re: and a space, body from draft, same threadId),
calls send, and only after the send call returns does it call modify to
remove the UNREAD label.  sendOk and modifyOk model whether those two
Gmail calls succeed; a failing call raises, so the node returns an error
and any later call is never attempted.  The first component lists the
calls attempted, in order. -/
def sender_node (sendOk modifyOk : Bool) (s : EmailState) :
    List MailOp × Except RunError EmailUpdate :=
  let sendOp := MailOp.sendMessage (s.thread_id.getD "") (s.sender.getD "")
    ("Re: " ++ s.subject.getD "") (s.draft.getD "")
  if sendOk then
    let modOp := MailOp.removeLabels (s.email_id.getD "") ["UNREAD"]
    if modifyOk then
      ([sendOp, modOp], Except.ok { emptyUpdate with status := some "sent" })
    else
      ([sendOp, modOp], Except.error RunError.labelMutationError)
  else
    ([sendOp], Except.error RunError.sendError)

/-- Translation of cleanup_node: one modify call removing both the
UNREAD and the INBOX labels (archive), then status archived.  The source
has no exception handling here, so a failing modify call makes the node
fail. -/
def cleanup_node (modifyOk : Bool) (s : EmailState) :
    List MailOp × Except RunError EmailUpdate :=
  let arcOp := MailOp.removeLabels (s.email_id.getD "") ["UNREAD", "INBOX"]
  if modifyOk then
    ([arcOp], Except.ok { emptyUpdate with status := some "archived" })
  else
    ([arcOp], Except.error RunError.archiveError)

/-- Translation of route_after_writer: Python truthiness of
state.get on is_spam and is_noreply (None and False are falsy). -/
def route_after_writer (s : EmailState) : String :=
  if s.is_spam.getD false || s.is_noreply.getD false then
    "spam/noreply-stop"
  else
    "continue"

/-- Translation of email_for_work: compares state.get of status with the
no_new_emails literal. -/
def email_for_work (s : EmailState) : String :=
  if s.status = some "no_new_emails" then "empty" else "has work"

/-- Nodes of the workflow graph as added in the source. -/
inductive Node
  | monitor
  | evaluate
  | send
  | cleanup
  deriving DecidableEq

/-- The conditional-edge path map attached after the writer node:
the dict mapping the spam/noreply-stop label to Cleanup and the
continue label to Send Email. -/
def writerPathMap : String → Option Node
  | "spam/noreply-stop" => some Node.cleanup
  | "continue" => some Node.send
  | _ => none

/-- Next node selected after the Evaluate/Write Draft node: the routing
function composed with the path map, exactly as add_conditional_edges
wires them. -/
def nextAfterEvaluate (s : EmailState) : Option Node :=
  writerPathMap (route_after_writer s)

/-- External-collaborator data for one run: the unread list the mailbox
returns to monitor_node, the classifier response returned to
evaluate_write_node, and success flags for the three Gmail mutation
calls (send and modify in sender_node, modify in cleanup_node). -/
structure RunEnv where
  mailbox : List GmailMessage
  verdict : EmailContent
  sendOk : Bool
  senderModifyOk : Bool
  cleanupOk : Bool

/-- Outcome of one graph invocation: the mailbox mutation calls
attempted (in order), the state after each node that completed, and the
final state or the error the run failed with. -/
structure RunResult where
  ops : List MailOp
  states : List EmailState
  result : Except RunError EmailState

/-- One run of the compiled graph, following exactly the edges the
source adds: START to Monitor Emails; a conditional edge after Monitor
Emails mapping empty to END and has work to Evaluate/Write Draft; a
conditional edge after Evaluate/Write Draft mapping spam/noreply-stop to
Cleanup and continue to Send Email; Cleanup to END.  The source adds no
outgoing edge for Send Email, so after that node no further task is
scheduled and the run halts with whatever state it has: in particular
the Send path never executes Cleanup. -/
def runGraph (env : RunEnv) (s0 : EmailState) : RunResult :=
  match monitor_node env.mailbox s0 with
  | Except.error e => { ops := [], states := [], result := Except.error e }
  | Except.ok u1 =>
    let s1 := applyUpdate s0 u1
    if email_for_work s1 = "empty" then
      { ops := [], states := [s1], result := Except.ok s1 }
    else
      let s2 := applyUpdate s1 (evaluate_write_node env.verdict s1)
      if route_after_writer s2 = "spam/noreply-stop" then
        match cleanup_node env.cleanupOk s2 with
        | (ops, Except.ok u3) =>
          { ops := ops, states := [s1, s2, applyUpdate s2 u3],
            result := Except.ok (applyUpdate s2 u3) }
        | (ops, Except.error e) =>
          { ops := ops, states := [s1, s2], result := Except.error e }
      else
        match sender_node env.sendOk env.senderModifyOk s2 with
        | (ops, Except.ok u3) =>
          { ops := ops, states := [s1, s2, applyUpdate s2 u3],
            result := Except.ok (applyUpdate s2 u3) }
        | (ops, Except.error e) =>
          { ops := ops, states := [s1, s2], result := Except.error e }

/-- What one iteration of the scheduler loop prints about its cycle,
from the bottom of emailbot.py: the no_new_emails branch, the sent
branch (Replied to, showing the sender), the generic branch showing the
status, or the except branch logging the error. -/
inductive Report
  | noNewEmails
  | repliedTo (sender : Option String)
  | cycleComplete (status : Option String)
  | errorOccurred (e : RunError)
  deriving DecidableEq

/-- The reporting branch of main applied to a completed run result. -/
def reportOf (s : EmailState) : Report :=
  if s.status = some "no_new_emails" then Report.noNewEmails
  else if s.status = some "sent" then Report.repliedTo s.sender
  else Report.cycleComplete s.status

/-- One scheduler cycle.  The graph is compiled with MemorySaver and
main always invokes it with the same configurable thread id, so the
checkpointed channel values of the previous run are the starting state
of this run (the input dict writes no EmailState channel).  On success
the final state becomes the next checkpoint; on a node failure the
checkpoint after the last completed superstep survives and the except
branch of main logs the error. -/
def schedulerStep (env : RunEnv) (cp : EmailState) : EmailState × Report :=
  let r := runGraph env cp
  match r.result with
  | Except.ok s => (s, reportOf s)
  | Except.error e => (r.states.getLastD cp, Report.errorOccurred e)

/-- The while-true loop of main, run for a given list of cycles: each
cycle is invoked on the checkpoint left by the one before it, and a
failing cycle is caught and logged, never stopping the loop. -/
def schedulerLoop : EmailState → List RunEnv → List Report
  | _, [] => []
  | cp, env :: rest =>
    let p := schedulerStep env cp
    p.2 :: schedulerLoop p.1 rest

/-- Status of the final state of a completed run, none when the run
failed. -/
def finalStatus (r : RunResult) : Option String :=
  match r.result with
  | Except.ok s => s.status
  | Except.error _ => none

/-- A run reaches sent when some state it passed through carries status
sent. -/
def reachesSent (r : RunResult) : Prop :=
  some "sent" ∈ r.states.map EmailState.status

instance (r : RunResult) : Decidable (reachesSent r) := by
  unfold reachesSent
  infer_instance

/-- The draft field holds a non-empty string (Python truthiness of the
draft value: both an absent key and an empty string are falsy). -/
def draftNonEmpty (s : EmailState) : Prop :=
  s.draft.getD "" ≠ ""

instance (s : EmailState) : Decidable (draftNonEmpty s) := by
  unfold draftNonEmpty
  infer_instance

/-- Recogniser for the send call among attempted mailbox operations. -/
def isSend : MailOp → Bool
  | MailOp.sendMessage _ _ _ _ => true
  | _ => false

/-- Recogniser for the archive call issued by cleanup_node (removal of
both the UNREAD and the INBOX labels). -/
def isArchive : MailOp → Bool
  | MailOp.removeLabels _ ls => decide (ls = ["UNREAD", "INBOX"])
  | _ => false

/-- Concrete unread message used in example runs. -/
def demoMsg : GmailMessage :=
  { id := "m1", threadId := "t1",
    headers := [("From", "alice@example.com"), ("Subject", "Meeting")],
    snippet := "Hello there" }

/-- Concrete message whose header list carries neither From nor Subject. -/
def noHeaderMsg : GmailMessage :=
  { id := "m2", threadId := "t2", headers := [], snippet := "x" }

/-- Classifier verdict flagging the mail as spam while still returning a
non-empty html_content. -/
def spamVerdict : EmailContent :=
  { subject := "Re", html_content := "<p>Buy now</p>", is_spam := true,
    is_noreply := false, category := "Other" }

/-- Classifier verdict for a legitimate inquiry with a non-empty draft. -/
def cleanVerdict : EmailContent :=
  { subject := "Re", html_content := "<p>Thanks for reaching out</p>",
    is_spam := false, is_noreply := false, category := "Inquiry" }

/-- Classifier verdict with both flags false and an empty html_content. -/
def emptyDraftVerdict : EmailContent :=
  { subject := "Re", html_content := "", is_spam := false,
    is_noreply := false, category := "Inquiry" }

/-- Cycle: one unread message, spam verdict, all Gmail calls succeed. -/
def envSpam : RunEnv :=
  { mailbox := [demoMsg], verdict := spamVerdict, sendOk := true,
    senderModifyOk := true, cleanupOk := true }

/-- Cycle: one unread message, clean verdict, all Gmail calls succeed. -/
def envClean : RunEnv :=
  { mailbox := [demoMsg], verdict := cleanVerdict, sendOk := true,
    senderModifyOk := true, cleanupOk := true }

/-- Cycle: one unread message, clean verdict with empty draft, all Gmail
calls succeed. -/
def envEmptyDraft : RunEnv :=
  { mailbox := [demoMsg], verdict := emptyDraftVerdict, sendOk := true,
    senderModifyOk := true, cleanupOk := true }

/-- Cycle: empty mailbox. -/
def envEmpty : RunEnv :=
  { mailbox := [], verdict := cleanVerdict, sendOk := true,
    senderModifyOk := true, cleanupOk := true }

/-- Cycle: the unread message has no headers at all. -/
def envNoHeader : RunEnv :=
  { mailbox := [noHeaderMsg], verdict := cleanVerdict, sendOk := true,
    senderModifyOk := true, cleanupOk := true }

/-- Cycle: one unread spam message, but the archive call in Cleanup
fails. -/
def envCleanupFail : RunEnv :=
  { mailbox := [demoMsg], verdict := spamVerdict, sendOk := true,
    senderModifyOk := true, cleanupOk := false }

/-- Final state of a completed run, defaulting to the fresh state when
the run failed. -/
def finalStateD (r : RunResult) : EmailState :=
  r.result.toOption.getD freshEmailState

/-- Final state of the clean-verdict example run. -/
def sCleanFinal : EmailState :=
  finalStateD (runGraph envClean freshEmailState)

/-- Checkpoint left behind by the spam-verdict example cycle. -/
def sSpamFinal : EmailState :=
  (schedulerStep envSpam freshEmailState).1

/-- State whose evaluation flags mark it as spam. -/
def stateSpamFlagged : EmailState :=
  { freshEmailState with is_spam := some true, is_noreply := some false }

/-- State whose evaluation flags are both false. -/
def stateBothFalse : EmailState :=
  { freshEmailState with is_spam := some false, is_noreply := some false }

/-- State ready for the Send node, fields as left by the earlier nodes. -/
def stateReply : EmailState :=
  { freshEmailState with
    sender := some "alice@example.com",
    email_id := some "m1", thread_id := some "t1",
    subject := some "Meeting", draft := some "<p>Thanks</p>",
    is_spam := some false, is_noreply := some false,
    status := some "drafted" }

/-- C3: the routing decision after the Evaluate step is a deterministic,
side-effect-free function of the run state: when is_spam or is_noreply
is truthy, route_after_writer selects the spam/noreply-stop label and
the conditional-edge map sends the run to Cleanup; when both are falsy
it selects continue, mapped to Send Email; and evaluating the routing
twice on the same state yields the same next node. -/
theorem C3_route_after_writer_deterministic (s : EmailState) :
    ((s.is_spam.getD false || s.is_noreply.getD false) = true →
      nextAfterEvaluate s = some Node.cleanup)
    ∧ ((s.is_spam.getD false || s.is_noreply.getD false) = false →
      nextAfterEvaluate s = some Node.send)
    ∧ nextAfterEvaluate s = nextAfterEvaluate s := by
  refine ⟨fun h => ?_, fun h => ?_, rfl⟩ <;>
    simp [nextAfterEvaluate, route_after_writer, writerPathMap, h]

/-- C3 witness: the routing theorem applied to a concrete spam-flagged
state. -/
theorem C3_route_after_writer_deterministic_witness :
    nextAfterEvaluate stateSpamFlagged = some Node.cleanup :=
  (C3_route_after_writer_deterministic stateSpamFlagged).1 (by decide)

/-- C9: monitor_node on an empty mailbox returns only the
no_new_emails status update; applying it leaves every other field of
the state unchanged, and running the node a second time on the result
returns the identical update and changes nothing. -/
theorem C9_monitor_idempotent_empty (s : EmailState) :
    ∃ u, monitor_node [] s = Except.ok u ∧
      (applyUpdate s u).status = some "no_new_emails" ∧
      monitor_node [] (applyUpdate s u) = Except.ok u ∧
      applyUpdate (applyUpdate s u) u = applyUpdate s u ∧
      (applyUpdate s u).sender = s.sender ∧
      (applyUpdate s u).email_id = s.email_id ∧
      (applyUpdate s u).thread_id = s.thread_id ∧
      (applyUpdate s u).raw_body = s.raw_body ∧
      (applyUpdate s u).subject = s.subject ∧
      (applyUpdate s u).is_spam = s.is_spam ∧
      (applyUpdate s u).is_noreply = s.is_noreply ∧
      (applyUpdate s u).category = s.category ∧
      (applyUpdate s u).draft = s.draft :=
  ⟨{ emptyUpdate with status := some "no_new_emails" },
    rfl, rfl, rfl, rfl, rfl, rfl, rfl, rfl, rfl, rfl, rfl, rfl, rfl⟩

/-- C8: in sender_node the unread-label removal is attempted only after
the send call succeeded: when the send call fails, the node fails with
the send error and its attempted-call list contains no label-removal
call; when the send call succeeds, the attempted-call list is exactly
the send followed by the unread-label removal, whatever the outcome of
the latter, so a label-removal failure never retracts the send. -/
theorem C8_send_precedes_label_removal (sendOk modifyOk : Bool) (s : EmailState) :
    (sendOk = false →
      (sender_node sendOk modifyOk s).2 = Except.error RunError.sendError ∧
      ∀ i ls, MailOp.removeLabels i ls ∉ (sender_node sendOk modifyOk s).1)
    ∧ (sendOk = true →
      (sender_node sendOk modifyOk s).1 =
        [MailOp.sendMessage (s.thread_id.getD "") (s.sender.getD "")
          ("Re: " ++ s.subject.getD "") (s.draft.getD ""),
         MailOp.removeLabels (s.email_id.getD "") ["UNREAD"]]) := by
  constructor
  · intro h
    subst h
    exact ⟨rfl, by intro i ls hmem; simp [sender_node] at hmem⟩
  · intro h
    subst h
    cases modifyOk <;> rfl

/-- C8 witness: the ordering theorem applied to a concrete state with a
failing send call. -/
theorem C8_send_precedes_label_removal_witness :
    (sender_node false true stateReply).2 = Except.error RunError.sendError ∧
    ∀ i ls, MailOp.removeLabels i ls ∉ (sender_node false true stateReply).1 :=
  (C8_send_precedes_label_removal false true stateReply).1 rfl

/-- C1 counterexample: with a classifier verdict flagged as spam but
carrying a non-empty html_content, the run is routed to Cleanup,
terminates at archived without ever passing through sent, and still
carries a non-empty draft, because evaluate_write_node copies
html_content into draft unconditionally. -/
theorem C1_counterexample :
    finalStatus (runGraph envSpam freshEmailState) = some "archived" ∧
    ¬ reachesSent (runGraph envSpam freshEmailState) ∧
    draftNonEmpty (finalStateD (runGraph envSpam freshEmailState)) :=
  ⟨rfl, by decide, by decide⟩

/-- C5 counterexample: with a classifier verdict whose flags are both
false but whose html_content is empty, the run reaches status sent with
an empty draft: sender_node never checks the draft. -/
theorem C5_counterexample :
    finalStatus (runGraph envEmptyDraft freshEmailState) = some "sent" ∧
    ¬ draftNonEmpty (finalStateD (runGraph envEmptyDraft freshEmailState)) :=
  ⟨rfl, by decide⟩

/-- C2 counterexample: a cycle that archives a spam mail is followed by
an empty-mailbox cycle; the second run completes with status
no_new_emails yet its final state still carries the sender written by
the first run, because the MemorySaver checkpoint under the fixed
thread id survives across cycles. -/
theorem C2_counterexample :
    schedulerLoop freshEmailState [envSpam, envEmpty] =
      [Report.cycleComplete (some "archived"), Report.noNewEmails] ∧
    (schedulerStep envEmpty (schedulerStep envSpam freshEmailState).1).1.sender =
      some "alice@example.com" :=
  ⟨rfl, rfl⟩

/-- C4 counterexample: when the archive call inside Cleanup fails, the
run aborts with the archive error and the scheduler loop logs an error
report; the run does not terminate reporting its prior status. -/
theorem C4_counterexample :
    (runGraph envCleanupFail freshEmailState).result =
      Except.error RunError.archiveError ∧
    (schedulerStep envCleanupFail freshEmailState).2 =
      Report.errorOccurred RunError.archiveError :=
  ⟨rfl, rfl⟩

/-- C6 counterexample: on the reply path the run terminates at status
sent and never issues the archive call: the source adds no edge from
Send Email to Cleanup, so the run halts after sending. -/
theorem C6_counterexample :
    finalStatus (runGraph envClean freshEmailState) = some "sent" ∧
    (runGraph envClean freshEmailState).ops.any isArchive = false :=
  ⟨rfl, rfl⟩

/-- C10 counterexample: a successful reply-path run makes the scheduler
loop take its Replied to branch, and the archive call of Cleanup never
happens during that run: the sent reporting branch is reachable
because Cleanup does not run after the Send path. -/
theorem C10_counterexample :
    (schedulerStep envClean freshEmailState).2 =
      Report.repliedTo (some "alice@example.com") ∧
    (runGraph envClean freshEmailState).ops.any isArchive = false :=
  ⟨rfl, rfl⟩

/-- C7: when the first unread message lacks the From or the Subject
header, monitor_node fails with the header-missing error and the whole
run fails with that error; when both headers are present it returns the
update setting status to new_email_detected and populating sender,
subject, email_id, thread_id and raw_body from the message. -/
theorem C7_monitor_header_contract (env : RunEnv) (cp : EmailState)
    (m : GmailMessage) (tl : List GmailMessage)
    (hmb : env.mailbox = m :: tl) :
    ((findHeader m.headers "From" = none ∨ findHeader m.headers "Subject" = none) →
      monitor_node env.mailbox cp = Except.error RunError.headerMissing ∧
      (runGraph env cp).result = Except.error RunError.headerMissing)
    ∧ (∀ vf vs, findHeader m.headers "From" = some vf →
        findHeader m.headers "Subject" = some vs →
        monitor_node env.mailbox cp = Except.ok { emptyUpdate with
          email_id := some m.id,
          thread_id := some m.threadId,
          sender := some vf,
          raw_body := some m.snippet,
          status := some "new_email_detected",
          subject := some vs }) := by
  obtain ⟨mb, v, so, smo, co⟩ := env
  dsimp only at hmb
  subst hmb
  constructor
  · intro h
    have hm : monitor_node (m :: tl) cp = Except.error RunError.headerMissing := by
      rcases h with h | h
      · simp [monitor_node, h]
      · cases hF : findHeader m.headers "From" with
        | none => simp [monitor_node, hF]
        | some vf => simp [monitor_node, hF, h]
    exact ⟨hm, by simp [runGraph, hm]⟩
  · intro vf vs hF hS
    simp [monitor_node, hF, hS]

/-- C7 witness: the header contract applied to a concrete message with
no headers at all. -/
theorem C7_monitor_header_contract_witness :
    monitor_node envNoHeader.mailbox freshEmailState =
      Except.error RunError.headerMissing ∧
    (runGraph envNoHeader freshEmailState).result =
      Except.error RunError.headerMissing :=
  (C7_monitor_header_contract envNoHeader freshEmailState noHeaderMsg [] rfl).1
    (Or.inl rfl)

/-- C2 amended: run state is not fresh per cycle; it persists through
the checkpointer.  An empty-mailbox cycle started on an arbitrary
checkpoint finishes with every field except status exactly as the
previous runs left it, so fields produced by one run stay visible in
later runs. -/
theorem C2_checkpoint_persists_across_cycles (env : RunEnv) (cp : EmailState)
    (hmb : env.mailbox = []) :
    (schedulerStep env cp).1.sender = cp.sender ∧
    (schedulerStep env cp).1.email_id = cp.email_id ∧
    (schedulerStep env cp).1.thread_id = cp.thread_id ∧
    (schedulerStep env cp).1.raw_body = cp.raw_body ∧
    (schedulerStep env cp).1.subject = cp.subject ∧
    (schedulerStep env cp).1.is_spam = cp.is_spam ∧
    (schedulerStep env cp).1.is_noreply = cp.is_noreply ∧
    (schedulerStep env cp).1.category = cp.category ∧
    (schedulerStep env cp).1.draft = cp.draft ∧
    (schedulerStep env cp).1.status = some "no_new_emails" := by
  obtain ⟨mb, v, so, smo, co⟩ := env
  dsimp only at hmb
  subst hmb
  exact ⟨rfl, rfl, rfl, rfl, rfl, rfl, rfl, rfl, rfl, rfl⟩

/-- C2 amended witness: the persistence theorem applied to the
checkpoint left by the spam-archiving example cycle followed by an
empty-mailbox cycle. -/
theorem C2_checkpoint_persists_across_cycles_witness :
    (schedulerStep envEmpty sSpamFinal).1.sender = sSpamFinal.sender ∧
    (schedulerStep envEmpty sSpamFinal).1.email_id = sSpamFinal.email_id ∧
    (schedulerStep envEmpty sSpamFinal).1.thread_id = sSpamFinal.thread_id ∧
    (schedulerStep envEmpty sSpamFinal).1.raw_body = sSpamFinal.raw_body ∧
    (schedulerStep envEmpty sSpamFinal).1.subject = sSpamFinal.subject ∧
    (schedulerStep envEmpty sSpamFinal).1.is_spam = sSpamFinal.is_spam ∧
    (schedulerStep envEmpty sSpamFinal).1.is_noreply = sSpamFinal.is_noreply ∧
    (schedulerStep envEmpty sSpamFinal).1.category = sSpamFinal.category ∧
    (schedulerStep envEmpty sSpamFinal).1.draft = sSpamFinal.draft ∧
    (schedulerStep envEmpty sSpamFinal).1.status = some "no_new_emails" :=
  C2_checkpoint_persists_across_cycles envEmpty sSpamFinal rfl

/-- C4 amended: a label-mutation failure inside Cleanup aborts the run
with the archive error; the scheduler loop catches it and logs an error
report instead of the prior status, and only the loop, not the run,
survives: the failing cycle is followed by the remaining cycles
unchanged. -/
theorem C4_archive_failure_aborts_run (env : RunEnv) (cp : EmailState)
    (rest : List RunEnv) (m : GmailMessage) (tl : List GmailMessage)
    (vf vs : String)
    (hmb : env.mailbox = m :: tl)
    (hF : findHeader m.headers "From" = some vf)
    (hS : findHeader m.headers "Subject" = some vs)
    (hroute : (env.verdict.is_spam || env.verdict.is_noreply) = true)
    (hco : env.cleanupOk = false) :
    (runGraph env cp).result = Except.error RunError.archiveError ∧
    (schedulerStep env cp).2 = Report.errorOccurred RunError.archiveError ∧
    schedulerLoop cp (env :: rest) =
      Report.errorOccurred RunError.archiveError ::
        schedulerLoop (schedulerStep env cp).1 rest := by
  obtain ⟨mb, v, so, smo, co⟩ := env
  dsimp only at hmb hroute hco
  subst hmb
  subst hco
  refine ⟨?_, ?_, ?_⟩
  · simp [runGraph, monitor_node, hF, hS, email_for_work, applyUpdate,
      orKeep, evaluate_write_node, route_after_writer, emptyUpdate,
      cleanup_node, hroute]
  · simp [schedulerStep, runGraph, monitor_node, hF, hS, email_for_work,
      applyUpdate, orKeep, evaluate_write_node, route_after_writer,
      emptyUpdate, cleanup_node, hroute]
  · simp [schedulerLoop, schedulerStep, runGraph, monitor_node, hF, hS,
      email_for_work, applyUpdate, orKeep, evaluate_write_node,
      route_after_writer, emptyUpdate, cleanup_node, hroute]

/-- C4 amended witness: the theorem applied to the concrete
failing-archive cycle. -/
theorem C4_archive_failure_aborts_run_witness :
    (runGraph envCleanupFail freshEmailState).result =
      Except.error RunError.archiveError ∧
    (schedulerStep envCleanupFail freshEmailState).2 =
      Report.errorOccurred RunError.archiveError ∧
    schedulerLoop freshEmailState [envCleanupFail] =
      Report.errorOccurred RunError.archiveError ::
        schedulerLoop (schedulerStep envCleanupFail freshEmailState).1 [] :=
  C4_archive_failure_aborts_run envCleanupFail freshEmailState [] demoMsg []
    "alice@example.com" "Meeting" rfl rfl rfl rfl rfl

/-- C6 amended: on the reply path the run sends exactly one reply whose
subject is Re: plus the original subject, whose body is the draft, on
the original thread id, then removes the unread label on the original
message, and terminates at status sent; it never archives, because the
source adds no edge from Send Email to Cleanup. -/
theorem C6_reply_path (env : RunEnv) (cp : EmailState) (m : GmailMessage)
    (tl : List GmailMessage) (vf vs : String)
    (hmb : env.mailbox = m :: tl)
    (hF : findHeader m.headers "From" = some vf)
    (hS : findHeader m.headers "Subject" = some vs)
    (hspam : env.verdict.is_spam = false)
    (hnr : env.verdict.is_noreply = false)
    (hsend : env.sendOk = true)
    (hmod : env.senderModifyOk = true) :
    (runGraph env cp).ops =
      [MailOp.sendMessage m.threadId vf ("Re: " ++ vs) env.verdict.html_content,
       MailOp.removeLabels m.id ["UNREAD"]] ∧
    ((runGraph env cp).ops.countP (fun op => isSend op)) = 1 ∧
    finalStatus (runGraph env cp) = some "sent" ∧
    (runGraph env cp).ops.any isArchive = false := by
  obtain ⟨mb, v, so, smo, co⟩ := env
  dsimp only at hmb hspam hnr hsend hmod
  subst hmb
  subst hsend
  subst hmod
  have hops : (runGraph ⟨m :: tl, v, true, true, co⟩ cp).ops =
      [MailOp.sendMessage m.threadId vf ("Re: " ++ vs) v.html_content,
       MailOp.removeLabels m.id ["UNREAD"]] := by
    simp [runGraph, monitor_node, hF, hS, email_for_work, applyUpdate,
      orKeep, evaluate_write_node, route_after_writer, emptyUpdate,
      sender_node, hspam, hnr]
  refine ⟨hops, ?_, ?_, ?_⟩
  · rw [hops]
    simp [isSend]
  · simp [finalStatus, runGraph, monitor_node, hF, hS, email_for_work,
      applyUpdate, orKeep, evaluate_write_node, route_after_writer,
      emptyUpdate, sender_node, hspam, hnr]
  · rw [hops]
    simp [isArchive]

/-- C6 amended witness: the reply-path theorem applied to the concrete
clean-verdict cycle. -/
theorem C6_reply_path_witness :
    (runGraph envClean freshEmailState).ops =
      [MailOp.sendMessage demoMsg.threadId "alice@example.com"
        ("Re: " ++ "Meeting") envClean.verdict.html_content,
       MailOp.removeLabels demoMsg.id ["UNREAD"]] ∧
    ((runGraph envClean freshEmailState).ops.countP (fun op => isSend op)) = 1 ∧
    finalStatus (runGraph envClean freshEmailState) = some "sent" ∧
    (runGraph envClean freshEmailState).ops.any isArchive = false :=
  C6_reply_path envClean freshEmailState demoMsg [] "alice@example.com"
    "Meeting" rfl rfl rfl rfl rfl rfl rfl

/-- C10 amended: every run that executes the Cleanup archive call and
completes successfully terminates at status archived, never sent; but
Cleanup does not run after the Send path (the Send Email node has no
outgoing edge), so the sent reporting branch of the scheduler loop
remains reachable through send-path runs. -/
theorem C10_cleanup_success_archived (env : RunEnv) (cp s : EmailState)
    (hok : (runGraph env cp).result = Except.ok s)
    (hcl : (runGraph env cp).ops.any isArchive = true) :
    s.status = some "archived" ∧ s.status ≠ some "sent" := by
  obtain ⟨mb, v, so, smo, co⟩ := env
  rcases mb with _ | ⟨m, tl⟩
  · simp [runGraph, monitor_node, email_for_work, applyUpdate, orKeep,
      emptyUpdate] at hcl
  · cases hF : findHeader m.headers "From" with
    | none => simp [runGraph, monitor_node, hF] at hok
    | some vf =>
      cases hS : findHeader m.headers "Subject" with
      | none => simp [runGraph, monitor_node, hF, hS] at hok
      | some vs =>
        cases hb : (v.is_spam || v.is_noreply) with
        | true =>
          cases co with
          | false =>
            simp [runGraph, monitor_node, hF, hS, email_for_work,
              applyUpdate, orKeep, emptyUpdate, evaluate_write_node,
              route_after_writer, hb, cleanup_node] at hok
          | true =>
            simp [runGraph, monitor_node, hF, hS, email_for_work,
              applyUpdate, orKeep, emptyUpdate, evaluate_write_node,
              route_after_writer, hb, cleanup_node] at hok
            rw [← hok]
            exact ⟨rfl, by simp⟩
        | false =>
          cases so with
          | false =>
            simp [runGraph, monitor_node, hF, hS, email_for_work,
              applyUpdate, orKeep, emptyUpdate, evaluate_write_node,
              route_after_writer, hb, sender_node, isArchive] at hcl
          | true =>
            cases smo with
            | false =>
              simp [runGraph, monitor_node, hF, hS, email_for_work,
                applyUpdate, orKeep, emptyUpdate, evaluate_write_node,
                route_after_writer, hb, sender_node, isArchive] at hcl
            | true =>
              simp [runGraph, monitor_node, hF, hS, email_for_work,
                applyUpdate, orKeep, emptyUpdate, evaluate_write_node,
                route_after_writer, hb, sender_node, isArchive] at hcl

/-- C10 amended witness: the theorem applied to the concrete
spam-archiving run. -/
theorem C10_cleanup_success_archived_witness :
    sSpamFinal.status = some "archived" ∧ sSpamFinal.status ≠ some "sent" :=
  C10_cleanup_success_archived envSpam freshEmailState sSpamFinal rfl rfl

/-- C5 amended: whenever a state of a run carries status sent, both
is_spam and is_noreply are false at that point, because the routing
guard admits only such states to the Send node; the draft, however, is
not necessarily non-empty there (see the counterexample), since
sender_node never inspects it. -/
theorem C5_sent_implies_flags_false (env : RunEnv) (cp s : EmailState)
    (hs : s ∈ (runGraph env cp).states) (hst : s.status = some "sent") :
    s.is_spam = some false ∧ s.is_noreply = some false := by
  obtain ⟨mb, v, so, smo, co⟩ := env
  rcases mb with _ | ⟨m, tl⟩
  · simp [runGraph, monitor_node, email_for_work, applyUpdate, orKeep,
      emptyUpdate] at hs
    subst hs
    simp at hst
  · cases hF : findHeader m.headers "From" with
    | none => simp [runGraph, monitor_node, hF] at hs
    | some vf =>
      cases hS : findHeader m.headers "Subject" with
      | none => simp [runGraph, monitor_node, hF, hS] at hs
      | some vs =>
        cases hb : (v.is_spam || v.is_noreply) with
        | true =>
          cases co with
          | true =>
            simp [runGraph, monitor_node, hF, hS, email_for_work,
              applyUpdate, orKeep, emptyUpdate, evaluate_write_node,
              route_after_writer, hb, cleanup_node] at hs
            rcases hs with hs | hs | hs <;> subst hs <;> simp at hst
          | false =>
            simp [runGraph, monitor_node, hF, hS, email_for_work,
              applyUpdate, orKeep, emptyUpdate, evaluate_write_node,
              route_after_writer, hb, cleanup_node] at hs
            rcases hs with hs | hs <;> subst hs <;> simp at hst
        | false =>
          cases so with
          | false =>
            simp [runGraph, monitor_node, hF, hS, email_for_work,
              applyUpdate, orKeep, emptyUpdate, evaluate_write_node,
              route_after_writer, hb, sender_node] at hs
            rcases hs with hs | hs <;> subst hs <;> simp at hst
          | true =>
            cases smo with
            | false =>
              simp [runGraph, monitor_node, hF, hS, email_for_work,
                applyUpdate, orKeep, emptyUpdate, evaluate_write_node,
                route_after_writer, hb, sender_node] at hs
              rcases hs with hs | hs <;> subst hs <;> simp at hst
            | true =>
              simp [runGraph, monitor_node, hF, hS, email_for_work,
                applyUpdate, orKeep, emptyUpdate, evaluate_write_node,
                route_after_writer, hb, sender_node] at hs
              rcases hs with hs | hs | hs
              · subst hs
                simp at hst
              · subst hs
                simp at hst
              · subst hs
                obtain ⟨h1, h2⟩ := Bool.or_eq_false_iff.mp hb
                exact ⟨by simp [h1], by simp [h2]⟩

/-- C5 amended witness: the theorem applied to the final state of the
concrete clean-verdict run. -/
theorem C5_sent_implies_flags_false_witness :
    sCleanFinal.is_spam = some false ∧ sCleanFinal.is_noreply = some false :=
  C5_sent_implies_flags_false envClean freshEmailState sCleanFinal
    (by decide) rfl

/-- C1 amended: evaluate_write_node copies the classifier html_content
into draft unconditionally, so the invariant holds only conditionally:
provided the classifier follows its prompt instructions (empty
html_content exactly when is_spam or is_noreply is true) and the run
completes without a collaborator failure, a run started on a fresh
state has a non-empty draft exactly when it reaches status sent, and in
particular a run routed to Cleanup carries an empty draft. -/
theorem C1_draft_nonempty_iff_sent (env : RunEnv) (s : EmailState)
    (hc1 : (env.verdict.is_spam || env.verdict.is_noreply) = true →
      env.verdict.html_content = "")
    (hc2 : (env.verdict.is_spam || env.verdict.is_noreply) = false →
      env.verdict.html_content ≠ "")
    (hok : (runGraph env freshEmailState).result = Except.ok s) :
    draftNonEmpty s ↔ reachesSent (runGraph env freshEmailState) := by
  obtain ⟨mb, v, so, smo, co⟩ := env
  dsimp only at hc1 hc2
  rcases mb with _ | ⟨m, tl⟩
  · simp [runGraph, monitor_node, email_for_work, applyUpdate, orKeep,
      emptyUpdate] at hok
    rw [← hok]
    simp [draftNonEmpty, reachesSent, runGraph, monitor_node,
      email_for_work, applyUpdate, orKeep, emptyUpdate, freshEmailState]
  · cases hF : findHeader m.headers "From" with
    | none => simp [runGraph, monitor_node, hF] at hok
    | some vf =>
      cases hS : findHeader m.headers "Subject" with
      | none => simp [runGraph, monitor_node, hF, hS] at hok
      | some vs =>
        cases hb : (v.is_spam || v.is_noreply) with
        | true =>
          cases co with
          | false =>
            simp [runGraph, monitor_node, hF, hS, email_for_work,
              applyUpdate, orKeep, emptyUpdate, evaluate_write_node,
              route_after_writer, hb, cleanup_node] at hok
          | true =>
            have hdr := hc1 hb
            simp [runGraph, monitor_node, hF, hS, email_for_work,
              applyUpdate, orKeep, emptyUpdate, evaluate_write_node,
              route_after_writer, hb, cleanup_node] at hok
            rw [← hok]
            simp [draftNonEmpty, reachesSent, runGraph, monitor_node,
              hF, hS, email_for_work, applyUpdate, orKeep, emptyUpdate,
              evaluate_write_node, route_after_writer, hb, cleanup_node,
              hdr]
        | false =>
          cases so with
          | false =>
            simp [runGraph, monitor_node, hF, hS, email_for_work,
              applyUpdate, orKeep, emptyUpdate, evaluate_write_node,
              route_after_writer, hb, sender_node] at hok
          | true =>
            cases smo with
            | false =>
              simp [runGraph, monitor_node, hF, hS, email_for_work,
                applyUpdate, orKeep, emptyUpdate, evaluate_write_node,
                route_after_writer, hb, sender_node] at hok
            | true =>
              have hdr := hc2 hb
              simp [runGraph, monitor_node, hF, hS, email_for_work,
                applyUpdate, orKeep, emptyUpdate, evaluate_write_node,
                route_after_writer, hb, sender_node] at hok
              rw [← hok]
              simp [draftNonEmpty, reachesSent, runGraph, monitor_node,
                hF, hS, email_for_work, applyUpdate, orKeep, emptyUpdate,
                evaluate_write_node, route_after_writer, hb, sender_node,
                hdr]

/-- C1 amended witness: the conditional invariant applied to the
concrete clean-verdict run, whose classifier response respects the
prompt contract. -/
theorem C1_draft_nonempty_iff_sent_witness :
    draftNonEmpty sCleanFinal ↔ reachesSent (runGraph envClean freshEmailState) :=
  C1_draft_nonempty_iff_sent envClean sCleanFinal (by decide)
    (fun _ => by decide) rfl

/-- C9 witness: the idempotence theorem applied to a concrete state
with all fields populated. -/
theorem C9_monitor_idempotent_empty_witness :
    ∃ u, monitor_node [] stateReply = Except.ok u ∧
      (applyUpdate stateReply u).status = some "no_new_emails" ∧
      monitor_node [] (applyUpdate stateReply u) = Except.ok u ∧
      applyUpdate (applyUpdate stateReply u) u = applyUpdate stateReply u ∧
      (applyUpdate stateReply u).sender = stateReply.sender ∧
      (applyUpdate stateReply u).email_id = stateReply.email_id ∧
      (applyUpdate stateReply u).thread_id = stateReply.thread_id ∧
      (applyUpdate stateReply u).raw_body = stateReply.raw_body ∧
      (applyUpdate stateReply u).subject = stateReply.subject ∧
      (applyUpdate stateReply u).is_spam = stateReply.is_spam ∧
      (applyUpdate stateReply u).is_noreply = stateReply.is_noreply ∧
      (applyUpdate stateReply u).category = stateReply.category ∧
      (applyUpdate stateReply u).draft = stateReply.draft :=
  C9_monitor_idempotent_empty stateReply
